import Mathlib

/-!
Verification of the cx-dashboard reconciliation-and-enrichment pipeline.

The definitions below are a shallow embedding of the three scripts
`scripts/phase1_parse_excel.py`, `scripts/phase2_enrich_inject.py` and
`scripts/phase3_db_inject.py`.  Python dicts whose only use is lookup are
embedded as functions `key → Option value` built by left folds in which a
later insertion of the same key overwrites the earlier one, exactly as in
Python; file contents read or written by the scripts appear as explicit
arguments and results; an uncaught Python exception is an `Option`/`none`
result.  Machine floats only ever hold exact won amounts here, so numeric
cell and JSON values are embedded as `ℚ` (or `Int` where the source is an
integer column).
-/

/-- Dict insertion: `m[k] = v` for a Python dict embedded as a lookup
function.  A later insertion of the same key overwrites the earlier one. -/
def mupd {α β : Type} [DecidableEq α] (m : α → Option β) (k : α) (v : β) : α → Option β :=
  fun x => if x = k then some v else m x

/-- The argument of `to_limit_tier` (the `grant_limit` of a segment row).
`num v` is any value on which Python's `float()` succeeds (a number, or a
numeric string — BigQuery's JSON output delivers numbers as strings);
`nonNumeric` is a non-null value on which `float()` raises `ValueError` or
`TypeError`. -/
inductive GrantLimit
  | null
  | num (v : ℚ)
  | nonNumeric
deriving DecidableEq

/-- `to_limit_tier` from `phase2_enrich_inject.py` lines 27-44; the copy in
`phase3_db_inject.py` lines 37-53 is textually identical.  The labels are
the Korean strings of the source; the spec refers to them as "unmatched",
"under 10M", "10M–50M", "50M–100M", "100M–500M", "500M and above" in that
order. -/
def to_limit_tier : GrantLimit → String
  | .null => "미매칭"
  | .nonNumeric => "미매칭"
  | .num v =>
    if v < 10000000 then "1천만 미만"
    else if v < 50000000 then "1천만~5천만"
    else if v < 100000000 then "5천만~1억"
    else if v < 500000000 then "1억~5억"
    else "5억 이상"

/-- The `corp_id` field of a segment row as it reaches `str(row.get("corp_id", ""))`:
absent, a JSON string, or a JSON integer. -/
inductive JId
  | missing
  | str (s : String)
  | num (n : Int)
deriving DecidableEq

/-- `str(row.get("corp_id", ""))`: the default for a missing key is `""`,
`str` of a string is itself, `str` of an integer is its decimal form. -/
def pyStrId : JId → String
  | .missing => ""
  | .str s => s
  | .num n => toString n

/-- One row of the remote query result or of `data/segment_cache.json`
(both have the same shape, per the query's SELECT list). -/
structure SegRow where
  corp_id : JId
  detail_category : Option String
  stability_status : Option String
  growth_status : Option String
  grant_limit : GrantLimit
deriving DecidableEq

/-- A segmentation profile value of `seg_map` (the dict built per row). -/
structure Seg where
  detailCategory : String
  stabilityStatus : String
  growthStatus : String
  limitTier : String
deriving DecidableEq

/-- Python `x or dflt` for an optional string `x`: `None` and `""` are
falsy and give the default. -/
def pyOrDefault (v : Option String) (dflt : String) : String :=
  match v with
  | none => dflt
  | some s => if s = "" then dflt else s

/-- The `seg_map` entry built from one result/cache row
(`phase2_enrich_inject.py` lines 140-146 and 178-185; identical in
`phase3_db_inject.py`). -/
def seg_of_row (row : SegRow) : Seg :=
  { detailCategory := pyOrDefault row.detail_category "미매칭"
    stabilityStatus := pyOrDefault row.stability_status "미매칭"
    growthStatus := pyOrDefault row.growth_status "미매칭"
    limitTier := to_limit_tier row.grant_limit }

/-- The `seg_map` dict built by iterating over a list of rows. -/
def segMapOfRows (rows : List SegRow) : String → Option Seg :=
  rows.foldl (fun m row => mupd m (pyStrId row.corp_id) (seg_of_row row)) fun _ => none

/-- The cache file `data/segment_cache.json` as `load_segment_cache`
observes it: absent (`os.path.exists` false), present but ill-formed
(`json.load` raises `JSONDecodeError`, or the loaded value is not a list
of dicts so the row loop's `row.get` raises `AttributeError`/`TypeError` —
uncaught on every call path), or a well-formed row list. -/
inductive CacheFile
  | absent
  | ill
  | rows (rs : List SegRow)
deriving DecidableEq

/-- `load_segment_cache` (`phase2_enrich_inject.py` lines 131-147,
`phase3_db_inject.py` lines 104-118): a missing cache file yields the empty
dict; an ill-formed one raises, with no guard anywhere on the call path
(`none` = the exception escapes and the run dies); otherwise the rows of
the file are folded into `seg_map`. -/
def load_segment_cache : CacheFile → Option (String → Option Seg)
  | .absent => some fun _ => none
  | .ill => none
  | .rows rs => some (segMapOfRows rs)

/-- The remote tool's stdout as `json.loads(result.stdout)` sees it on a
zero exit: not valid JSON (`json.JSONDecodeError`, which IS in the except
tuple), valid JSON that is not a list of dicts — e.g. `[1]` or `{"a":1}` —
on which the row loop's `row.get(...)` raises `AttributeError`/`TypeError`
(NOT in the except tuple, so it escapes the try), or a well-formed row
list. -/
inductive BqStdout
  | notJson
  | badShape
  | rows (rs : List SegRow)

/-- Outcome of the single `subprocess.run(["bq", ...], timeout=30)`
attempt.  `raised` is `FileNotFoundError` or `subprocess.TimeoutExpired`
(both in the except tuple); `exited c out` is a completed process with
return code `c` and stdout `out` (the stdout is parsed only when
`c = 0`). -/
inductive BqOutcome
  | raised
  | exited (returncode : Int) (stdout : BqStdout)

/-- A remote-query failure that the scripts' except tuple
`(FileNotFoundError, subprocess.TimeoutExpired, json.JSONDecodeError)`
actually catches: a raise, a non-zero exit (stdout never parsed), or
undecodable stdout.  A zero-exit response of the wrong JSON shape is a
failure the tuple does not catch. -/
def BqOutcome.isCaughtFailure : BqOutcome → Bool
  | .raised => true
  | .exited c out =>
    if c = 0 then
      match out with
      | .notJson => true
      | _ => false
    else true

/-- `fetch_segments_from_bq` of `phase2_enrich_inject.py` lines 150-197.
Result: `none` when an uncaught exception escapes — a zero-exit response of
the wrong JSON shape inside the try, or the unguarded cache load raising in
the fallback path outside the try; otherwise the returned `seg_map`
together with the cache file state after the call (the cache is rewritten
with the raw result rows only in the success branch, after the row loop).
Empty `corp_ids` returns the empty dict at once; a raise, a non-zero exit
or undecodable stdout all fall through to the cache fallback. -/
def fetch_segments_from_bq_p2 (cacheFile : CacheFile) (bq : BqOutcome)
    (corp_ids : List Int) : Option ((String → Option Seg) × CacheFile) :=
  if corp_ids.isEmpty then some ((fun _ => none), cacheFile)
  else
    match bq with
    | .raised => (load_segment_cache cacheFile).map fun m => (m, cacheFile)
    | .exited c out =>
      if c = 0 then
        match out with
        | .rows rows => some (segMapOfRows rows, .rows rows)
        | .badShape => none
        | .notJson => (load_segment_cache cacheFile).map fun m => (m, cacheFile)
      else (load_segment_cache cacheFile).map fun m => (m, cacheFile)

/-- `fetch_segments_from_bq` of `phase3_db_inject.py` lines 121-156.
Identical to the phase-2 version except that empty `corp_ids` returns
`load_segment_cache()` instead of the empty dict (so an ill-formed cache
raises there too). -/
def fetch_segments_from_bq_p3 (cacheFile : CacheFile) (bq : BqOutcome)
    (corp_ids : List Int) : Option ((String → Option Seg) × CacheFile) :=
  if corp_ids.isEmpty then (load_segment_cache cacheFile).map fun m => (m, cacheFile)
  else
    match bq with
    | .raised => (load_segment_cache cacheFile).map fun m => (m, cacheFile)
    | .exited c out =>
      if c = 0 then
        match out with
        | .rows rows => some (segMapOfRows rows, .rows rows)
        | .badShape => none
        | .notJson => (load_segment_cache cacheFile).map fun m => (m, cacheFile)
      else (load_segment_cache cacheFile).map fun m => (m, cacheFile)

/-- `re.sub(r"[^0-9]", "", s)`: keep only the decimal digits of `s`. -/
def stripNonDigits (s : String) : String :=
  String.mk (s.data.filter Char.isDigit)

/-- A record of the Accepted Set in the `convert_record` output format of
`phase3_db_inject.py` lines 161-190 (the 13 legacy dashboard fields plus
the DB-only payload fields). -/
structure Record where
  chatId : String
  date : Option String
  company : String
  oldTag : String
  primaryTag : String
  secondaryTag : Option String
  confidence : Option String
  detailCategory : String
  stabilityStatus : String
  growthStatus : String
  limitTier : String
  firstAnswerSec : Option ℚ
  closeSec : Option ℚ
  impact : Option String
  journey : Option String
  title : Option String
  summary : Option String
  customerRequest : Option String
  result : Option String
  assignee : Option String
  slackLink : Option String
  source : String
deriving DecidableEq

/-- One row of the `insights` table as returned by `load_db_records`
(`phase3_db_inject.py` lines 58-74); nullable TEXT columns are `Option`. -/
structure DbRow where
  slack_ts : String
  date : Option String
  tags : Option String
  tag_major : Option String
  impact : Option String
  journey : Option String
  title : Option String
  summary : Option String
  customer_request : Option String
  result : Option String
  slack_link : Option String
  corp_number : Option String
  companyname : Option String
  assignee : Option String
deriving DecidableEq

/-- `convert_record` (`phase3_db_inject.py` lines 161-190): strip the row's
`corp_number` to digits, look it up in `seg_map` (`seg_map.get(corp, {})`
followed by `seg.get(field, "미매칭")`), and build the dashboard record. -/
def convert_record (seg_map : String → Option Seg) (row : DbRow) : Record :=
  let corp_number := stripNonDigits (row.corp_number.getD "")
  { chatId := row.slack_ts
    date := row.date
    company := pyOrDefault row.companyname "미확인"
    oldTag := pyOrDefault row.tags "미분류"
    primaryTag := pyOrDefault row.tag_major "미분류"
    secondaryTag := row.impact
    confidence := some "auto"
    detailCategory := match seg_map corp_number with | some s => s.detailCategory | none => "미매칭"
    stabilityStatus := match seg_map corp_number with | some s => s.stabilityStatus | none => "미매칭"
    growthStatus := match seg_map corp_number with | some s => s.growthStatus | none => "미매칭"
    limitTier := match seg_map corp_number with | some s => s.limitTier | none => "미매칭"
    firstAnswerSec := none
    closeSec := none
    impact := row.impact
    journey := row.journey
    title := row.title
    summary := row.summary
    customerRequest := row.customer_request
    result := row.result
    assignee := row.assignee
    slackLink := row.slack_link
    source := "db" }

/-- The Identity Index of a loaded Accepted Set:
`set(r.get("chatId", "") for r in existing_records)` (`phase3_db_inject.py`
line 241), embedded as the list of `chatId` values with list membership
standing for set membership. -/
def record_ids (records : List Record) : List String :=
  records.map fun r => r.chatId

/-- One reconciliation run of `phase3_db_inject.main` (lines 238-272):
filter the ingestion batch against the Identity Index built from the
starting Accepted Set (`new_rows = [r for r in db_records if r["slack_ts"]
not in existing_ids]`), convert the survivors, and append them after the
existing records (`all_records = existing_records + converted`).  When no
row survives, `main` returns before writing, which coincides with appending
the empty list.  `seg_map` is whatever the Segment Resolver produced for
this run. -/
def run3 (existing : List Record) (seg_map : String → Option Seg) (db : List DbRow) : List Record :=
  let new_rows := db.filter fun r => !(decide (r.slack_ts ∈ record_ids existing))
  existing ++ new_rows.map (convert_record seg_map)

/-- A JSON scalar, for embedding the phase-2 records, which are arbitrary
JSON objects round-tripped through the document (nested values never occur
in the fields these scripts touch). -/
inductive JVal
  | null
  | s (v : String)
  | n (v : ℚ)
  | b (v : Bool)
deriving DecidableEq

/-- A phase-2 record: a JSON object embedded as an association list with
distinct keys; `List.lookup` is `dict.get`. -/
abbrev PDict := List (String × JVal)

/-- The field filtering of `inject_into_html` (`phase2_enrich_inject.py`
lines 221-224): `{k: r.get(k) for k in fields_to_keep}` — the kept fields
in list order, each valued `r.get(k)`, which is JSON `null` when the key is
absent. -/
def project_fields (fields : List String) (r : PDict) : PDict :=
  fields.map fun k => (k, (r.lookup k).getD JVal.null)

/-- `INDEX_FIELDS` of `phase2_enrich_inject.py` lines 278-283. -/
def INDEX_FIELDS : List String :=
  ["chatId", "date", "company", "oldTag", "primaryTag", "secondaryTag", "confidence",
   "detailCategory", "stabilityStatus", "growthStatus", "limitTier", "firstAnswerSec", "closeSec"]

/-- The record list phase 2 writes into the destination document
(`phase2_enrich_inject.py` lines 285-288 with 216-240): the merged list
`existing_index + new_records`, every element projected onto
`INDEX_FIELDS`. -/
def all_records_written_p2 (existing_index new_records : List PDict) : List PDict :=
  (existing_index ++ new_records).map (project_fields INDEX_FIELDS)

/-- A phase-1/phase-2 record (the 13 fields built by `parse_userchat` in
`phase1_parse_excel.py` lines 126-140 and carried through
`data/new_records.json`); identity values are embedded as strings. -/
structure P2Record where
  chatId : String
  date : Option String
  company : Option String
  oldTag : String
  primaryTag : String
  secondaryTag : Option String
  confidence : Option String
  detailCategory : String
  stabilityStatus : String
  growthStatus : String
  limitTier : String
  firstAnswerSec : Option ℚ
  closeSec : Option ℚ
deriving DecidableEq

/-- The body of the `enrich_records` loop (`phase2_enrich_inject.py` lines
200-213) applied to the record list built so far and the matched counter:
`corp_id = corp_map.get(chat_id)`; `if corp_id and corp_id in seg_map:`
assign the four enrichment fields and bump the counter. -/
def enrich_step (corp_map : String → Option String) (seg_map : String → Option Seg)
    (acc : List P2Record × ℕ) (rec : P2Record) : List P2Record × ℕ :=
  match corp_map rec.chatId with
  | some corp_id =>
    if corp_id ≠ "" then
      match seg_map corp_id with
      | some seg =>
        (acc.1 ++ [{ rec with detailCategory := seg.detailCategory,
                              stabilityStatus := seg.stabilityStatus,
                              growthStatus := seg.growthStatus,
                              limitTier := seg.limitTier }], acc.2 + 1)
      | none => (acc.1 ++ [rec], acc.2)
    else (acc.1 ++ [rec], acc.2)
  | none => (acc.1 ++ [rec], acc.2)

/-- `enrich_records` (`phase2_enrich_inject.py` lines 200-213): the Python
loop mutates the list in place and returns `matched`; the embedding returns
the resulting record list together with `matched`. -/
def enrich_records_p2 (corp_map : String → Option String) (seg_map : String → Option Seg)
    (recs : List P2Record) : List P2Record × ℕ :=
  recs.foldl (enrich_step corp_map seg_map) ([], 0)

/-- Whether the `enrich_records` loop enriches a record: its `chatId` maps
to a truthy (non-empty) `corp_id` that is a key of `seg_map`. -/
def enrich_hit (corp_map : String → Option String) (seg_map : String → Option Seg)
    (rec : P2Record) : Bool :=
  match corp_map rec.chatId with
  | some corp_id => (corp_id != "") && (seg_map corp_id).isSome
  | none => false

/-- The effect of one `enrich_records` iteration on its record. -/
def enrich_one (corp_map : String → Option String) (seg_map : String → Option Seg)
    (rec : P2Record) : P2Record :=
  match corp_map rec.chatId with
  | some corp_id =>
    if corp_id ≠ "" then
      match seg_map corp_id with
      | some seg =>
        { rec with detailCategory := seg.detailCategory,
                   stabilityStatus := seg.stabilityStatus,
                   growthStatus := seg.growthStatus,
                   limitTier := seg.limitTier }
      | none => rec
    else rec
  | none => rec

/-- The fields of a phase-2 record other than the four enrichment fields. -/
def p2_frame_fields (r : P2Record) :=
  (r.chatId, r.date, r.company, r.oldTag, r.primaryTag, r.secondaryTag, r.confidence,
   r.firstAnswerSec, r.closeSec)

/-- An Excel cell value as returned by `openpyxl` with `data_only=True`:
`non` is an empty cell (`None`), `str` a text cell, `num` an integer-valued
cell. -/
inductive Cell
  | non
  | str (s : String)
  | num (n : Int)
deriving DecidableEq

/-- Python truthiness of a cell value: `None`, `""` and `0` are falsy. -/
def truthy : Cell → Bool
  | .non => false
  | .str s => s != ""
  | .num n => n != 0

/-- Python `str()` of a cell value. -/
def pyStr : Cell → String
  | .non => "None"
  | .str s => s
  | .num n => toString n

/-- A `UserChat` sheet row, restricted to the three columns
`build_corp_number_map` reads: `chat_id` (column 1), the directly embedded
business number `corp_direct` (column 4), and `user_id` (column 14). -/
structure ChatRow where
  chat_id : Cell
  corp_direct : Cell
  user_id : Cell
deriving DecidableEq

/-- A `User data` sheet row, restricted to the two columns
`build_corp_number_map` reads: `uid` (column 1) and the
`profile.corp_number` cell `corp` (column 6). -/
structure UserRow where
  uid : Cell
  corp : Cell
deriving DecidableEq

/-- A dict built by one pass over rows: insert `key r ↦ val r` for every
row satisfying `p`, later rows overwriting earlier ones. -/
def foldInsert {ρ α β : Type} [DecidableEq α] (p : ρ → Bool) (key : ρ → α) (val : ρ → β)
    (l : List ρ) : α → Option β :=
  l.foldl (fun m r => if p r then mupd m (key r) (val r) else m) fun _ => none

/-- The `chat_to_user` dict of `build_corp_number_map`
(`phase2_enrich_inject.py` lines 94-102): rows with a falsy `chat_id` are
skipped (`if not chat_id: continue`), and an entry is stored only when
`user_id` is truthy.  The Python loop fills `chat_to_user` and
`chat_to_corp_direct` in a single pass; as the two dicts never interact,
the pass is split into one fold per dict. -/
def chat_to_user (chats : List ChatRow) : Cell → Option Cell :=
  foldInsert (fun r => truthy r.chat_id && truthy r.user_id) (fun r => r.chat_id)
    (fun r => r.user_id) chats

/-- The `chat_to_corp_direct` dict (`phase2_enrich_inject.py` lines
103-106): for rows with a truthy `chat_id`, when the embedded value is
truthy and of string type (`if corp_direct and isinstance(corp_direct,
str)`) store it stripped to digits — even when nothing remains after
stripping. -/
def chat_to_corp_direct (chats : List ChatRow) : Cell → Option String :=
  foldInsert
    (fun r => truthy r.chat_id &&
      (match r.corp_direct with | .str s => s != "" | _ => false))
    (fun r => r.chat_id)
    (fun r => match r.corp_direct with | .str s => stripNonDigits s | _ => "")
    chats

/-- The `user_to_corp` dict (`phase2_enrich_inject.py` lines 109-115):
`if uid and corp: user_to_corp[uid] = re.sub(r"[^0-9]", "", str(corp))`. -/
def user_to_corp (users : List UserRow) : Cell → Option String :=
  foldInsert (fun u => truthy u.uid && truthy u.corp) (fun u => u.uid)
    (fun u => stripNonDigits (pyStr u.corp)) users

/-- `build_corp_number_map` (`phase2_enrich_inject.py` lines 92-128), as a
lookup: the final `result` dict is filled by `for chat_id in chat_to_user:`
— only chats with a stored `user_id` can be mapped — preferring the
directly read business number and falling back to the `User data` join. -/
def build_corp_number_map (chats : List ChatRow) (users : List UserRow) : Cell → Option String :=
  fun chat_id =>
    match chat_to_user chats chat_id with
    | none => none
    | some user_id =>
      match chat_to_corp_direct chats chat_id with
      | some d => some d
      | none => user_to_corp users user_id

/-- The `User data` join described by the spec's Identifier Mapper
contract, path (b): the actor's row, when found and holding a truthy
business-number cell, contributes its digit-stripped value.  Stated over
`find?`; under key-uniqueness this is what `user_to_corp` computes. -/
def lookupUserCorp (users : List UserRow) (uid : Cell) : Option String :=
  match users.find? (fun u => u.uid == uid) with
  | some u => if truthy u.corp then some (stripNonDigits (pyStr u.corp)) else none
  | none => none

/-- A record of the parsed `ALL_RECORDS` block as far as
`load_existing_chat_ids` reads it: only the `chatId` key matters, and a
JSON object may lack it. -/
structure IdxRec where
  chatId : Option String
deriving DecidableEq

/-- The result of `json.loads` on the text captured by the marker regex:
`ill` when the captured text is not valid JSON (for example a block
`[1,];`, which the lazy regex captures as `[1,]`), `ok` otherwise. -/
inductive BlockParse
  | ill
  | ok (records : List IdxRec)
deriving DecidableEq

/-- The destination document as `load_existing_chat_ids` observes it:
the file is absent (`os.path.exists` false), present without a match for
`re.search(r"const ALL_RECORDS = (\[.*?\]);", ...)`, or present with a
match whose captured group parses as in `BlockParse`. -/
inductive DocState
  | absent
  | noMarker
  | marker (b : BlockParse)
deriving DecidableEq

/-- `load_existing_chat_ids` of `phase1_parse_excel.py` lines 35-52: empty
set when the file is absent or the marker is not found; otherwise
`json.loads` runs unguarded (`none` = the `JSONDecodeError` escapes and the
run dies), and `{r["chatId"] for r in records}` raises `KeyError` (`none`)
if any parsed record lacks the key.  The returned id set is embedded as the
list of ids. -/
def load_existing_chat_ids_p1 : DocState → Option (List String)
  | .absent => some []
  | .noMarker => some []
  | .marker .ill => none
  | .marker (.ok rs) =>
    if rs.all fun r => r.chatId.isSome then some (rs.filterMap fun r => r.chatId)
    else none

/-- `load_existing_chat_ids` of `phase3_db_inject.py` lines 79-88: same
structure, but ids are read with `r.get("chatId", "")`, so a record without
the key contributes `""` instead of raising. -/
def load_existing_chat_ids_p3 : DocState → Option (List String)
  | .absent => some []
  | .noMarker => some []
  | .marker .ill => none
  | .marker (.ok rs) => some (rs.map fun r => r.chatId.getD "")

/-- The destination document as the writers see it, split at the two regex
markers: plain text, the single `const ALL_RECORDS = [...];` region (held
as the record list it serializes), and an `id="lastUpdateDate">...<`
region. -/
inductive Piece (ρ : Type)
  | text (s : String)
  | recordsBlock (records : List ρ)
  | dateElem (payload : String)
deriving DecidableEq

/-- Whether a piece is the `ALL_RECORDS` marker region. -/
def isRecordsBlock {ρ : Type} : Piece ρ → Bool
  | .recordsBlock _ => true
  | _ => false

/-- `re.sub(r"    const ALL_RECORDS = \[.*?\];", new_line, content,
count=1)`: replace the contents of the first marker region, leave
everything else untouched; when no region matches, `re.sub` returns the
content unchanged. -/
def subBlockFirst {ρ : Type} : List (Piece ρ) → List ρ → List (Piece ρ)
  | [], _ => []
  | .text s :: t, rs => .text s :: subBlockFirst t rs
  | .dateElem s :: t, rs => .dateElem s :: subBlockFirst t rs
  | .recordsBlock _ :: t, rs => .recordsBlock rs :: t

/-- The display-date substitution
`re.sub(r'id="lastUpdateDate">[^<]+<', ..., content)` (no count: every
matching region is replaced). -/
def subDateAll {ρ : Type} (c : List (Piece ρ)) (d : String) : List (Piece ρ) :=
  c.map fun p =>
    match p with
    | .dateElem _ => .dateElem d
    | p => p

/-- `inject_into_html` of `phase2_enrich_inject.py` lines 216-240: project
every record onto `fields_to_keep` and substitute the serialized list into
the first marker region (the display-date update happens separately in
`main`).  Total: a missing marker leaves the content unchanged. -/
def inject_into_html_p2 (content : List (Piece PDict)) (all_records : List PDict)
    (fields_to_keep : List String) : List (Piece PDict) :=
  subBlockFirst content (all_records.map (project_fields fields_to_keep))

/-- Split a character list at every occurrence of `sep` (the shape of
Python's `"-".split`). -/
def splitOnChar (sep : Char) : List Char → List (List Char)
  | [] => [[]]
  | c :: cs =>
    match splitOnChar sep cs with
    | h :: t => if c = sep then [] :: h :: t else (c :: h) :: t
    | [] => if c = sep then [[], []] else [[c]]

/-- The decimal value of a digit string. -/
def digitsVal (cs : List Char) : Nat :=
  cs.foldl (fun n c => n * 10 + (c.toNat - 48)) 0

/-- `datetime.strptime(max_date, "%Y-%m-%d")` followed by
`f"{dt.year}. {dt.month}. {dt.day}."`; `none` embeds the `ValueError` of an
unparseable date.  The strptime validation is approximated by digit-only
components with month and day in calendar range — adequate here, as no
theorem depends on the rejected cases. -/
def date_display (ymd : String) : Option String :=
  match splitOnChar '-' ymd.data with
  | [y, m, d] =>
    if y ≠ [] ∧ y.all Char.isDigit ∧ m ≠ [] ∧ m.all Char.isDigit
        ∧ d ≠ [] ∧ d.all Char.isDigit
        ∧ 1 ≤ digitsVal m ∧ digitsVal m ≤ 12 ∧ 1 ≤ digitsVal d ∧ digitsVal d ≤ 31 then
      some (toString (digitsVal y) ++ ". " ++ toString (digitsVal m) ++ ". "
        ++ toString (digitsVal d) ++ ".")
    else none
  | _ => none

/-- `[r.get("date") for r in all_records if r.get("date")]`: the truthy
(present and non-empty) dates of the record list. -/
def pyTruthyDates (rs : List Record) : List String :=
  rs.filterMap fun r =>
    match r.date with
    | some d => if d != "" then some d else none
    | none => none

/-- `inject_into_html` of `phase3_db_inject.py` lines 195-222: substitute
the serialized record list into the first marker region, then — when any
record has a truthy date — replace every display-date region with the
formatted `max(all_dates)` (Python `max` on strings; the fold below is its
left-to-right maximum).  `none` embeds the uncaught `ValueError` of
`strptime` on an unparseable maximal date. -/
def inject_into_html_p3 (content : List (Piece Record)) (all_records : List Record) :
    Option (List (Piece Record)) :=
  let c1 := subBlockFirst content all_records
  match pyTruthyDates all_records with
  | [] => some c1
  | d :: ds =>
    match date_display (ds.foldl max d) with
    | some disp => some (subDateAll c1 disp)
    | none => none

/-- C5 — Tier Classifier correctness: null or non-numeric magnitudes map to
the unmatched label "미매칭"; values below 10,000,000 to "1천만 미만"
("under 10M"); values in [10M, 50M) to "1천만~5천만" ("10M–50M"); values in
[50M, 100M) to "5천만~1억" ("50M–100M"); values in [100M, 500M) to
"1억~5억" ("100M–500M"); all remaining values to "5억 이상" ("500M and
above"); and the boundary probes 9,999,999 / 10,000,000 / 500,000,000 fall
as the spec states. -/
theorem to_limit_tier_spec :
    to_limit_tier .null = "미매칭"
    ∧ to_limit_tier .nonNumeric = "미매칭"
    ∧ (∀ v : ℚ, v < 10000000 → to_limit_tier (.num v) = "1천만 미만")
    ∧ (∀ v : ℚ, 10000000 ≤ v → v < 50000000 → to_limit_tier (.num v) = "1천만~5천만")
    ∧ (∀ v : ℚ, 50000000 ≤ v → v < 100000000 → to_limit_tier (.num v) = "5천만~1억")
    ∧ (∀ v : ℚ, 100000000 ≤ v → v < 500000000 → to_limit_tier (.num v) = "1억~5억")
    ∧ (∀ v : ℚ, 500000000 ≤ v → to_limit_tier (.num v) = "5억 이상")
    ∧ to_limit_tier (.num 9999999) = "1천만 미만"
    ∧ to_limit_tier (.num 10000000) = "1천만~5천만"
    ∧ to_limit_tier (.num 500000000) = "5억 이상" := by
  refine ⟨rfl, rfl, ?_, ?_, ?_, ?_, ?_, by norm_num [to_limit_tier], by norm_num [to_limit_tier],
    by norm_num [to_limit_tier]⟩
  all_goals intro v
  · intro h1
    simp [to_limit_tier, h1]
  · intro h1 h2
    simp [to_limit_tier, h2, not_lt.mpr h1]
  · intro h1 h2
    have n1 : ¬ v < 10000000 := by linarith
    have n2 : ¬ v < 50000000 := by linarith
    simp [to_limit_tier, h2, n1, n2]
  · intro h1 h2
    have n1 : ¬ v < 10000000 := by linarith
    have n2 : ¬ v < 50000000 := by linarith
    have n3 : ¬ v < 100000000 := by linarith
    simp [to_limit_tier, h2, n1, n2, n3]
  · intro h1
    have n1 : ¬ v < 10000000 := by linarith
    have n2 : ¬ v < 50000000 := by linarith
    have n3 : ¬ v < 100000000 := by linarith
    have n4 : ¬ v < 500000000 := by linarith
    simp [to_limit_tier, n1, n2, n3, n4]

/-- Witness for C5: the range conjuncts of `to_limit_tier_spec` applied at
concrete magnitudes. -/
theorem to_limit_tier_spec_witness :
    to_limit_tier (.num 5) = "1천만 미만"
    ∧ to_limit_tier (.num 30000000) = "1천만~5천만"
    ∧ to_limit_tier (.num 75000000) = "5천만~1억"
    ∧ to_limit_tier (.num 200000000) = "1억~5억"
    ∧ to_limit_tier (.num 700000000) = "5억 이상" :=
  ⟨to_limit_tier_spec.2.2.1 5 (by norm_num),
   to_limit_tier_spec.2.2.2.1 30000000 (by norm_num) (by norm_num),
   to_limit_tier_spec.2.2.2.2.1 75000000 (by norm_num) (by norm_num),
   to_limit_tier_spec.2.2.2.2.2.1 200000000 (by norm_num) (by norm_num),
   to_limit_tier_spec.2.2.2.2.2.2.1 700000000 (by norm_num)⟩

/-- Counterexample for C6: with a non-empty cache snapshot holding a profile
for "123", the phase-2 resolver called with an empty identifier set returns
the empty mapping — not the cache snapshot loaded standalone, which does
have an entry for "123".  (The remote outcome is irrelevant: the query is
never attempted.) -/
theorem fetch_empty_ids_counterexample :
    (fetch_segments_from_bq_p2
        (CacheFile.rows [⟨.str "123", some "A", some "B", some "C", .num 75000000⟩])
        .raised []).map (fun r => r.1 "123")
      ≠ (load_segment_cache
          (CacheFile.rows [⟨.str "123", some "A", some "B", some "C", .num 75000000⟩])).map
            (fun m => m "123") := by
  decide

/-- C6 amended — on an empty identifier set neither resolver attempts the
remote query and the cache file is untouched; the phase-3 resolver returns
exactly the outcome of loading the Cache Snapshot standalone (so an
ill-formed snapshot propagates its raise there), while the phase-2 resolver
returns the empty mapping. -/
theorem fetch_empty_ids_amended (cacheFile : CacheFile) (bq bq2 : BqOutcome) :
    fetch_segments_from_bq_p3 cacheFile bq []
        = (load_segment_cache cacheFile).map (fun m => (m, cacheFile))
    ∧ fetch_segments_from_bq_p2 cacheFile bq [] = some ((fun _ => none), cacheFile)
    ∧ fetch_segments_from_bq_p3 cacheFile bq [] = fetch_segments_from_bq_p3 cacheFile bq2 []
    ∧ fetch_segments_from_bq_p2 cacheFile bq [] = fetch_segments_from_bq_p2 cacheFile bq2 [] :=
  ⟨rfl, rfl, rfl, rfl⟩

/-- Counterexample for C4: two failing remote queries on which the run
fails instead of returning the cache mapping: a zero-exit response that is
valid JSON of the wrong shape (e.g. stdout `[1]`) raises uncaught inside
the try in both scripts; and a caught raise whose fallback then loads an
ill-formed cache snapshot raises uncaught in `load_segment_cache`. -/
theorem fetch_fallback_crash_counterexample :
    fetch_segments_from_bq_p2 (CacheFile.rows []) (.exited 0 .badShape) [7] = none
    ∧ fetch_segments_from_bq_p3 (CacheFile.rows []) (.exited 0 .badShape) [7] = none
    ∧ fetch_segments_from_bq_p2 CacheFile.ill .raised [7] = none
    ∧ fetch_segments_from_bq_p3 CacheFile.ill .raised [7] = none :=
  ⟨rfl, rfl, rfl, rfl⟩

/-- C4 amended — when the remote query is attempted (non-empty identifier
set) and fails in one of the ways the except tuple catches (tool raised or
timed out, non-zero exit, or undecodable stdout), both resolvers fall back
to loading the cache snapshot: the result is exactly the outcome of the
standalone cache load with the cache file untouched, and in particular,
whenever that standalone load succeeds, the run does not fail and returns
exactly its mapping.  But two failure modes escape: a zero-exit response
that is valid JSON of the wrong shape raises uncaught inside the try (cache
untouched, run fails), and a fallback taken on an ill-formed cache snapshot
raises uncaught in the cache load itself. -/
theorem fetch_segments_fallback_amended (cacheFile : CacheFile) (bq : BqOutcome)
    (corp_ids : List Int) (hne : corp_ids ≠ []) :
    (bq.isCaughtFailure = true →
        fetch_segments_from_bq_p2 cacheFile bq corp_ids
            = (load_segment_cache cacheFile).map (fun m => (m, cacheFile))
        ∧ fetch_segments_from_bq_p3 cacheFile bq corp_ids
            = (load_segment_cache cacheFile).map (fun m => (m, cacheFile)))
    ∧ (∀ m, bq.isCaughtFailure = true → load_segment_cache cacheFile = some m →
        fetch_segments_from_bq_p2 cacheFile bq corp_ids = some (m, cacheFile)
        ∧ fetch_segments_from_bq_p3 cacheFile bq corp_ids = some (m, cacheFile))
    ∧ fetch_segments_from_bq_p2 cacheFile (.exited 0 .badShape) corp_ids = none
    ∧ fetch_segments_from_bq_p3 cacheFile (.exited 0 .badShape) corp_ids = none := by
  have hne' : corp_ids.isEmpty = false := by
    cases corp_ids with
    | nil => exact absurd rfl hne
    | cons a t => rfl
  have hmain : bq.isCaughtFailure = true →
      fetch_segments_from_bq_p2 cacheFile bq corp_ids
          = (load_segment_cache cacheFile).map (fun m => (m, cacheFile))
      ∧ fetch_segments_from_bq_p3 cacheFile bq corp_ids
          = (load_segment_cache cacheFile).map (fun m => (m, cacheFile)) := by
    intro hf
    cases bq with
    | raised => simp [fetch_segments_from_bq_p2, fetch_segments_from_bq_p3, hne']
    | exited c out =>
      by_cases hc : c = 0
      · subst hc
        cases out with
        | notJson => simp [fetch_segments_from_bq_p2, fetch_segments_from_bq_p3, hne']
        | badShape => simp [BqOutcome.isCaughtFailure] at hf
        | rows rows => simp [BqOutcome.isCaughtFailure] at hf
      · simp [fetch_segments_from_bq_p2, fetch_segments_from_bq_p3, hne', hc]
  refine ⟨hmain, ?_, ?_, ?_⟩
  · intro m hf hm
    have h := hmain hf
    rw [hm] at h
    exact ⟨h.1, h.2⟩
  · simp [fetch_segments_from_bq_p2, hne']
  · simp [fetch_segments_from_bq_p3, hne']

/-- Witness for C4 amended: the no-failure conjunct applied to a concrete
well-formed cache, a concrete raised outcome, and the one-element
identifier list. -/
theorem fetch_segments_fallback_amended_witness :
    fetch_segments_from_bq_p2 (CacheFile.rows [⟨.str "7", none, none, none, .null⟩]) .raised [7]
        = some (segMapOfRows [⟨.str "7", none, none, none, .null⟩],
                CacheFile.rows [⟨.str "7", none, none, none, .null⟩])
    ∧ fetch_segments_from_bq_p3 (CacheFile.rows [⟨.str "7", none, none, none, .null⟩]) .raised [7]
        = some (segMapOfRows [⟨.str "7", none, none, none, .null⟩],
                CacheFile.rows [⟨.str "7", none, none, none, .null⟩]) :=
  (fetch_segments_fallback_amended (CacheFile.rows [⟨.str "7", none, none, none, .null⟩])
      .raised [7] (by simp)).2.1 (segMapOfRows [⟨.str "7", none, none, none, .null⟩]) rfl rfl

/-- The identity of a converted record is the row's `slack_ts`. -/
theorem convert_record_chatId (seg_map : String → Option Seg) (row : DbRow) :
    (convert_record seg_map row).chatId = row.slack_ts := rfl

/-- After a run, every identity of the ingestion batch is in the Identity
Index built from the updated Accepted Set. -/
theorem batch_ids_subset_after_run (existing : List Record) (seg : String → Option Seg)
    (db : List DbRow) :
    ∀ r ∈ db, r.slack_ts ∈ record_ids (run3 existing seg db) := by
  intro r hr
  unfold run3 record_ids
  rw [List.map_append]
  by_cases hmem : r.slack_ts ∈ record_ids existing
  · exact List.mem_append_left _ hmem
  · apply List.mem_append_right
    rw [List.map_map]
    refine List.mem_map.2 ⟨r, ?_, convert_record_chatId seg r⟩
    refine List.mem_filter.2 ⟨hr, ?_⟩
    rw [Bool.not_eq_true', decide_eq_false_iff_not]
    exact hmem

/-- C1 — Idempotence of reconciliation: running the phase-3 pipeline a
second time with the same ingestion batch against the already-updated
destination yields the same Accepted Set, whatever segment mapping either
run resolved; moreover the second run's surviving-row list is empty, because
every incoming identity already exists in the Identity Index built from the
updated destination. -/
theorem reconcile_run_idempotent (existing : List Record) (seg1 seg2 : String → Option Seg)
    (db : List DbRow) :
    run3 (run3 existing seg1 db) seg2 db = run3 existing seg1 db
    ∧ db.filter (fun r => !(decide (r.slack_ts ∈ record_ids (run3 existing seg1 db)))) = [] := by
  have hnil : db.filter (fun r => !(decide (r.slack_ts ∈ record_ids (run3 existing seg1 db)))) = [] := by
    rw [List.filter_eq_nil_iff]
    intro a ha
    simp [batch_ids_subset_after_run existing seg1 db a ha]
  refine ⟨?_, hnil⟩
  conv_lhs => rw [run3]
  rw [hnil]
  simp

/-- C2 — Identity uniqueness: if the starting Accepted Set has pairwise
distinct identities and the ingestion batch has pairwise distinct
identities (the spec assumes the batch unique by construction of its
source), then the post-run Accepted Set has pairwise distinct identities. -/
theorem accepted_ids_nodup (existing : List Record) (seg : String → Option Seg)
    (db : List DbRow) (h1 : (record_ids existing).Nodup)
    (h2 : (db.map fun r => r.slack_ts).Nodup) :
    (record_ids (run3 existing seg db)).Nodup := by
  unfold run3 record_ids
  rw [List.map_append, List.map_map]
  have hfun : ((fun r : Record => r.chatId) ∘ convert_record seg) = fun x : DbRow => x.slack_ts :=
    funext fun x => convert_record_chatId seg x
  rw [hfun]
  refine List.Nodup.append h1 ?_ ?_
  · exact h2.sublist (List.Sublist.map _ (List.filter_sublist _))
  · intro a ha1 ha2
    obtain ⟨r, hrf, rfl⟩ := List.mem_map.1 ha2
    have hp := (List.mem_filter.1 hrf).2
    simp only [Bool.not_eq_true', decide_eq_false_iff_not] at hp
    exact hp ha1

/-- Witness for C2: the uniqueness theorem applied to a concrete one-record
Accepted Set and a concrete two-row batch whose first row is a duplicate. -/
theorem accepted_ids_nodup_witness :
    (record_ids (run3
      [⟨"A1", none, "씨앗", "미분류", "미분류", none, none, "미매칭", "미매칭", "미매칭",
        "미매칭", none, none, none, none, none, none, none, none, none, none, "db"⟩]
      (fun _ => none)
      [⟨"A1", none, none, none, none, none, none, none, none, none, none, none, none, none⟩,
       ⟨"B2", none, none, none, none, none, none, none, none, none, none, none, none, none⟩])).Nodup :=
  accepted_ids_nodup _ _ _ (by decide) (by decide)

/-- Counterexample for C3: a previously accepted record carrying the
phase-3 payload field "source" is not left unchanged by a phase-2 merge —
the written Accepted Set does not have the input Accepted Set as a prefix,
because the writer projects every record (existing ones included) onto the
13 `INDEX_FIELDS`, dropping the payload field. -/
theorem existing_record_modified_counterexample :
    ¬ [[("chatId", JVal.s "A1"), ("source", JVal.s "db")]] <+:
        all_records_written_p2 [[("chatId", JVal.s "A1"), ("source", JVal.s "db")]]
          [[("chatId", JVal.s "B2")]] := by
  decide

/-- Lookup of a kept field after projection: the projected record holds
exactly `r.get(k)` (with JSON null for an absent key). -/
theorem project_fields_lookup (fields : List String) (r : PDict) (k : String)
    (hk : k ∈ fields) :
    (project_fields fields r).lookup k = some ((r.lookup k).getD JVal.null) := by
  induction fields with
  | nil => cases hk
  | cons f t ih =>
    by_cases hfk : k = f
    · subst hfk
      simp [project_fields, List.lookup]
    · have hkt : k ∈ t := by
        rcases List.mem_cons.1 hk with h | h
        · exact absurd h hfk
        · exact h
      have hbeq : (k == f) = false := beq_eq_false_iff_ne.2 hfk
      simpa [project_fields, List.lookup, hbeq] using ih hkt

/-- C3 amended — the merge appends newly accepted records, in their
original relative order, after all previously accepted records, and never
reorders existing records.  The phase-3 writer stores the merged list
verbatim, so there the input Accepted Set is an unchanged prefix of the
output.  The phase-2 writer, however, first projects every record —
existing ones included — onto the fixed 13-field list `INDEX_FIELDS`: each
existing record keeps its position and the values of the 13 kept fields,
but any other payload field is dropped (and an absent kept field
materializes as null), so the input set is a prefix of the output only up
to that projection. -/
theorem merge_prefix_amended :
    (∀ (existing : List Record) (seg : String → Option Seg) (db : List DbRow),
        existing <+: run3 existing seg db)
    ∧ (∀ existing_index new_records : List PDict,
        all_records_written_p2 existing_index new_records
          = existing_index.map (project_fields INDEX_FIELDS)
            ++ new_records.map (project_fields INDEX_FIELDS))
    ∧ (∀ (existing_index new_records : List PDict) (i : ℕ), i < existing_index.length →
        (all_records_written_p2 existing_index new_records)[i]?
          = (existing_index[i]?).map (project_fields INDEX_FIELDS))
    ∧ (∀ (r : PDict) (k : String), k ∈ INDEX_FIELDS →
        (project_fields INDEX_FIELDS r).lookup k = some ((r.lookup k).getD JVal.null)) := by
  refine ⟨fun existing seg db => ⟨_, rfl⟩, ?_, ?_, ?_⟩
  · intro ex nw
    simp [all_records_written_p2]
  · intro ex nw i hi
    simp only [all_records_written_p2]
    rw [List.getElem?_map, List.getElem?_append_left hi]
  · intro r k hk
    exact project_fields_lookup INDEX_FIELDS r k hk

/-- Witness for C3 amended: the kept-field-preservation and position
conjuncts applied at a concrete record and index. -/
theorem merge_prefix_amended_witness :
    (project_fields INDEX_FIELDS [("chatId", JVal.s "A1"), ("source", JVal.s "db")]).lookup "chatId"
        = some (JVal.s "A1")
    ∧ (all_records_written_p2 [[("chatId", JVal.s "A1")]] [[("chatId", JVal.s "B2")]])[0]?
        = some (project_fields INDEX_FIELDS [("chatId", JVal.s "A1")]) := by
  constructor
  · have h := merge_prefix_amended.2.2.2 [("chatId", JVal.s "A1"), ("source", JVal.s "db")]
      "chatId" (by decide)
    simpa using h
  · have h := merge_prefix_amended.2.2.1 [[("chatId", JVal.s "A1")]] [[("chatId", JVal.s "B2")]]
      0 (by decide)
    simpa using h

/-- One `enrich_records` iteration appends the enriched record and bumps
the counter exactly on a hit. -/
theorem enrich_step_eq (cm : String → Option String) (sm : String → Option Seg)
    (acc : List P2Record × ℕ) (rec : P2Record) :
    enrich_step cm sm acc rec
      = (acc.1 ++ [enrich_one cm sm rec],
         acc.2 + if enrich_hit cm sm rec then 1 else 0) := by
  unfold enrich_step enrich_one enrich_hit
  cases h : cm rec.chatId with
  | none => simp
  | some corp_id =>
    by_cases hc : corp_id = ""
    · subst hc
      simp
    · cases hs : sm corp_id with
      | none => simp [hc, hs]
      | some seg => simp [hc, hs]

/-- Unrolling the `enrich_records` fold from any starting state. -/
theorem enrich_records_foldl (cm : String → Option String) (sm : String → Option Seg)
    (recs : List P2Record) :
    ∀ acc : List P2Record × ℕ,
      recs.foldl (enrich_step cm sm) acc
        = (acc.1 ++ recs.map (enrich_one cm sm),
           acc.2 + recs.countP (fun r => enrich_hit cm sm r)) := by
  induction recs with
  | nil => intro acc; simp
  | cons a t ih =>
    intro acc
    rw [List.foldl_cons, enrich_step_eq, ih]
    refine Prod.ext ?_ ?_
    · simp
    · simp only [List.countP_cons]
      by_cases h : enrich_hit cm sm a
      · simp [h]
        omega
      · simp [h]

/-- C10 — enrichment frame: `enrich_records` keeps the number and order of
records (the i-th output record is the effect of the loop body on the i-th
input record); a record is changed only when its `chatId` maps to a
non-empty business identifier present in the profile mapping, in which case
exactly the four enrichment fields take the profile's values; every other
record, and every field outside the four enrichment fields, is unchanged;
and the returned matched count is the number of records so enriched. -/
theorem enrich_records_frame (cm : String → Option String) (sm : String → Option Seg)
    (recs : List P2Record) :
    (enrich_records_p2 cm sm recs).1 = recs.map (enrich_one cm sm)
    ∧ (enrich_records_p2 cm sm recs).1.length = recs.length
    ∧ (enrich_records_p2 cm sm recs).2 = recs.countP (fun r => enrich_hit cm sm r)
    ∧ (∀ rec : P2Record, enrich_hit cm sm rec = false → enrich_one cm sm rec = rec)
    ∧ (∀ rec : P2Record, p2_frame_fields (enrich_one cm sm rec) = p2_frame_fields rec)
    ∧ (∀ (rec : P2Record) (corp_id : String) (seg : Seg),
        cm rec.chatId = some corp_id → corp_id ≠ "" → sm corp_id = some seg →
          enrich_one cm sm rec
            = { rec with detailCategory := seg.detailCategory,
                         stabilityStatus := seg.stabilityStatus,
                         growthStatus := seg.growthStatus,
                         limitTier := seg.limitTier }) := by
  refine ⟨?_, ?_, ?_, ?_, ?_, ?_⟩
  · rw [enrich_records_p2, enrich_records_foldl]
    simp
  · rw [enrich_records_p2, enrich_records_foldl]
    simp
  · rw [enrich_records_p2, enrich_records_foldl]
    simp
  · intro rec hmiss
    unfold enrich_one
    cases h : cm rec.chatId with
    | none => rfl
    | some corp_id =>
      by_cases hc : corp_id = ""
      · simp [hc]
      · cases hs : sm corp_id with
        | none => simp [hc, hs]
        | some seg =>
          exfalso
          have hhit : enrich_hit cm sm rec = true := by
            unfold enrich_hit
            rw [h]
            simp [hc, hs]
          rw [hmiss] at hhit
          exact Bool.false_ne_true hhit
  · intro rec
    unfold enrich_one
    cases h : cm rec.chatId with
    | none => rfl
    | some corp_id =>
      by_cases hc : corp_id = ""
      · simp [hc]
      · cases hs : sm corp_id with
        | none => simp [hc, hs]
        | some seg => simp [hc, hs, p2_frame_fields]
  · intro rec corp_id seg h1 h2 h3
    unfold enrich_one
    rw [h1]
    simp [h2, h3]

/-- Witness for C10: the no-hit frame conjunct and the hit conjunct of
`enrich_records_frame` applied at concrete records and mappings. -/
theorem enrich_records_frame_witness :
    enrich_one (fun _ => none) (fun _ => none)
        ⟨"A1", none, none, "미분류", "미분류", none, none, "미매칭", "미매칭", "미매칭",
         "미매칭", none, none⟩
      = ⟨"A1", none, none, "미분류", "미분류", none, none, "미매칭", "미매칭", "미매칭",
         "미매칭", none, none⟩
    ∧ enrich_one (fun c => if c = "B2" then some "123" else none)
        (fun c => if c = "123" then some ⟨"성장", "안정", "성장세", "5천만~1억"⟩ else none)
        ⟨"B2", none, none, "미분류", "미분류", none, none, "미매칭", "미매칭", "미매칭",
         "미매칭", none, none⟩
      = ⟨"B2", none, none, "미분류", "미분류", none, none, "성장", "안정", "성장세",
         "5천만~1억", none, none⟩ :=
  ⟨(enrich_records_frame (fun _ => none) (fun _ => none) []).2.2.2.1 _ rfl,
   (enrich_records_frame (fun c => if c = "B2" then some "123" else none)
      (fun c => if c = "123" then some ⟨"성장", "안정", "성장세", "5천만~1억"⟩ else none)
      []).2.2.2.2.2 _ "123" ⟨"성장", "안정", "성장세", "5천만~1억"⟩ rfl (by decide) rfl⟩

/-- A fold-built dict leaves the start map unchanged at a key no inserted
row carries. -/
theorem foldInsert_aux_notmem {ρ α β : Type} [DecidableEq α] (p : ρ → Bool) (key : ρ → α)
    (val : ρ → β) (k : α) :
    ∀ (l : List ρ) (m0 : α → Option β), (∀ r ∈ l, p r = true → key r ≠ k) →
      l.foldl (fun m r => if p r then mupd m (key r) (val r) else m) m0 k = m0 k := by
  intro l
  induction l with
  | nil => intro m0 _; rfl
  | cons a t ih =>
    intro m0 h
    rw [List.foldl_cons, ih _ fun r hr => h r (List.mem_cons_of_mem a hr)]
    by_cases hp : p a = true
    · have hk : key a ≠ k := h a (List.mem_cons_self a t) hp
      simp [hp, mupd, Ne.symm hk]
    · simp [hp]

/-- A fold-built dict holds `val r` at `key r` for an inserted row `r`,
provided row keys are pairwise distinct. -/
theorem foldInsert_aux_mem {ρ α β : Type} [DecidableEq α] (p : ρ → Bool) (key : ρ → α)
    (val : ρ → β) (r : ρ) :
    ∀ (l : List ρ) (m0 : α → Option β), r ∈ l → p r = true → (l.map key).Nodup →
      l.foldl (fun m r => if p r then mupd m (key r) (val r) else m) m0 (key r)
        = some (val r) := by
  intro l
  induction l with
  | nil => intro m0 hr; cases hr
  | cons a t ih =>
    intro m0 hr hp hnd
    rw [List.map_cons, List.nodup_cons] at hnd
    rw [List.foldl_cons]
    rcases List.mem_cons.1 hr with rfl | hrt
    · have hnot : ∀ s ∈ t, p s = true → key s ≠ key r := by
        intro s hs _ he
        exact hnd.1 (he ▸ List.mem_map_of_mem key hs)
      rw [foldInsert_aux_notmem p key val (key r) t _ hnot]
      simp [hp, mupd]
    · exact ih _ hrt hp hnd.2

/-- Under key-uniqueness of the `User data` sheet, the `user_to_corp` dict
lookup at a truthy uid agrees with the `find?`-style join. -/
theorem user_to_corp_eq (users : List UserRow) (uid : Cell)
    (hu : truthy uid = true) (hnd : (users.map fun u => u.uid).Nodup) :
    user_to_corp users uid = lookupUserCorp users uid := by
  have hinj := List.inj_on_of_nodup_map hnd
  unfold user_to_corp lookupUserCorp foldInsert
  cases hfind : users.find? (fun u => u.uid == uid) with
  | none =>
    have hnot : ∀ u ∈ users, (truthy u.uid && truthy u.corp) = true → u.uid ≠ uid := by
      intro u humem _ he
      have := List.find?_eq_none.1 hfind u humem
      simp [he] at this
    exact foldInsert_aux_notmem _ _ _ uid users _ hnot
  | some u =>
    have humem : u ∈ users := List.mem_of_find?_eq_some hfind
    have huid : u.uid = uid := by
      have := List.find?_some hfind
      simpa using this
    by_cases hc : truthy u.corp = true
    · have hp : (truthy u.uid && truthy u.corp) = true := by
        rw [huid]
        simp [hu, hc]
      rw [← huid]
      rw [foldInsert_aux_mem _ _ _ u users _ humem hp hnd]
      simp [hc]
    · have hnot : ∀ s ∈ users, (truthy s.uid && truthy s.corp) = true → s.uid ≠ uid := by
        intro s hs hps he
        have hsu : s = u := hinj hs humem (he.trans huid.symm)
        rw [hsu, Bool.and_eq_true] at hps
        exact hc hps.2
      rw [foldInsert_aux_notmem _ _ _ uid users _ hnot]
      simp [hc]

/-- C7 amended — for a `UserChat` row with a truthy identity (and sheets
with pairwise-distinct keys), the Identifier Mapper maps the row only when
it has a truthy actor reference: a row without `user_id` is never mapped,
even when a direct string business number is present.  Among mapped rows
the direct embedded string value (truthy and of string type) wins over the
`User data` join, and candidates are digit-stripped with an
empty-after-stripping direct candidate still stored (as the empty string)
rather than discarded. -/
theorem build_corp_number_map_amended (chats : List ChatRow) (users : List UserRow)
    (r : ChatRow) (hr : r ∈ chats) (hc : truthy r.chat_id = true)
    (hnd1 : (chats.map fun x => x.chat_id).Nodup)
    (hnd2 : (users.map fun u => u.uid).Nodup) :
    build_corp_number_map chats users r.chat_id
      = if truthy r.user_id then
          (match r.corp_direct with
           | Cell.str s =>
             if s ≠ "" then some (stripNonDigits s) else lookupUserCorp users r.user_id
           | _ => lookupUserCorp users r.user_id)
        else none := by
  have hinj := List.inj_on_of_nodup_map hnd1
  unfold build_corp_number_map
  by_cases hu : truthy r.user_id = true
  · have h1 : chat_to_user chats r.chat_id = some r.user_id := by
      unfold chat_to_user foldInsert
      exact foldInsert_aux_mem _ _ _ r chats _ hr (by simp [hc, hu]) hnd1
    rw [h1]
    have hjoin := user_to_corp_eq users r.user_id hu hnd2
    cases hcd : r.corp_direct with
    | str s =>
      by_cases hs : s = ""
      · have h2 : chat_to_corp_direct chats r.chat_id = none := by
          unfold chat_to_corp_direct foldInsert
          refine foldInsert_aux_notmem _ _ _ r.chat_id chats _ ?_
          intro x hx hpx he
          rw [hinj hx hr he] at hpx
          rw [hcd] at hpx
          simp [hs] at hpx
        rw [h2]
        simp [hu, hs, hjoin]
      · have h2 : chat_to_corp_direct chats r.chat_id = some (stripNonDigits s) := by
          unfold chat_to_corp_direct foldInsert
          have := foldInsert_aux_mem
            (fun x => truthy x.chat_id &&
              (match x.corp_direct with | Cell.str s => s != "" | _ => false))
            (fun x => x.chat_id)
            (fun x => match x.corp_direct with | Cell.str s => stripNonDigits s | _ => "")
            r chats (fun _ => none) hr (by simp [hc, hcd, hs]) hnd1
          rw [this]
          simp [hcd]
        rw [h2]
        simp [hu, hs]
    | non =>
      have h2 : chat_to_corp_direct chats r.chat_id = none := by
        unfold chat_to_corp_direct foldInsert
        refine foldInsert_aux_notmem _ _ _ r.chat_id chats _ ?_
        intro x hx hpx he
        rw [hinj hx hr he] at hpx
        rw [hcd] at hpx
        simp at hpx
      rw [h2]
      simp [hu, hjoin]
    | num n =>
      have h2 : chat_to_corp_direct chats r.chat_id = none := by
        unfold chat_to_corp_direct foldInsert
        refine foldInsert_aux_notmem _ _ _ r.chat_id chats _ ?_
        intro x hx hpx he
        rw [hinj hx hr he] at hpx
        rw [hcd] at hpx
        simp at hpx
      rw [h2]
      simp [hu, hjoin]
  · have h1 : chat_to_user chats r.chat_id = none := by
      unfold chat_to_user foldInsert
      refine foldInsert_aux_notmem _ _ _ r.chat_id chats _ ?_
      intro x hx hpx he
      rw [hinj hx hr he, Bool.and_eq_true] at hpx
      exact hu hpx.2
    rw [h1]
    simp [hu]

/-- Counterexample for C7: a `UserChat` row with a direct string business
number but no actor reference is NOT mapped (path (a) requires a stored
`user_id`, contrary to the claim); and a direct candidate that is empty
after digit-stripping DOES appear in the mapping, as the empty string,
rather than being discarded. -/
theorem corp_map_counterexample :
    build_corp_number_map [⟨Cell.str "c1", Cell.str "123-45", Cell.non⟩] [] (Cell.str "c1") = none
    ∧ build_corp_number_map [⟨Cell.str "c2", Cell.str "abc", Cell.str "u1"⟩] [] (Cell.str "c2")
        = some "" := by
  constructor <;> rfl

/-- Witness for C7 amended: the characterization applied to a concrete
one-row sheet pair, evaluating to the digit-stripped direct value. -/
theorem build_corp_number_map_amended_witness :
    build_corp_number_map [⟨Cell.str "c1", Cell.str "12-3", Cell.str "u1"⟩]
        [⟨Cell.str "u1", Cell.str "99-9"⟩] (Cell.str "c1") = some "123" := by
  have h := build_corp_number_map_amended [⟨Cell.str "c1", Cell.str "12-3", Cell.str "u1"⟩]
      [⟨Cell.str "u1", Cell.str "99-9"⟩] ⟨Cell.str "c1", Cell.str "12-3", Cell.str "u1"⟩
      (by simp) (by decide) (by decide) (by decide)
  exact h.trans (by decide)

/-- Counterexample for C8: a destination document whose marker is found but
whose captured block is not valid JSON does NOT yield an empty Identity
Index — in both scripts the unguarded `json.loads` raises and the run
fails. -/
theorem identity_index_parse_counterexample :
    load_existing_chat_ids_p1 (DocState.marker BlockParse.ill) = none
    ∧ load_existing_chat_ids_p3 (DocState.marker BlockParse.ill) = none :=
  ⟨rfl, rfl⟩

/-- C8 amended — an absent destination document or a found-no-marker
document yields an empty Identity Index without failing the run, in both
scripts; but a found marker whose captured block fails JSON parsing raises
and fails the run (and in phase 1 a parsed record lacking the `chatId` key
raises as well). -/
theorem identity_index_degradation_amended (d : DocState)
    (h : d = DocState.absent ∨ d = DocState.noMarker) :
    load_existing_chat_ids_p1 d = some [] ∧ load_existing_chat_ids_p3 d = some [] := by
  rcases h with rfl | rfl
  · exact ⟨rfl, rfl⟩
  · exact ⟨rfl, rfl⟩

/-- Witness for C8 amended: the degradation theorem applied to the absent
document. -/
theorem identity_index_degradation_amended_witness :
    load_existing_chat_ids_p1 DocState.absent = some []
    ∧ load_existing_chat_ids_p3 DocState.absent = some [] :=
  identity_index_degradation_amended DocState.absent (Or.inl rfl)

/-- The block substitution is a no-op on content with no marker region. -/
theorem subBlockFirst_no_marker {ρ : Type} (c : List (Piece ρ)) (rs : List ρ)
    (h : ∀ p ∈ c, isRecordsBlock p = false) : subBlockFirst c rs = c := by
  induction c with
  | nil => rfl
  | cons a t ih =>
    cases a with
    | text s =>
      rw [subBlockFirst, ih fun p hp => h p (List.mem_cons_of_mem _ hp)]
    | dateElem s =>
      rw [subBlockFirst, ih fun p hp => h p (List.mem_cons_of_mem _ hp)]
    | recordsBlock rs0 =>
      have := h _ (List.mem_cons_self _ t)
      simp [isRecordsBlock] at this

/-- Counterexample for C9: a destination document with no `ALL_RECORDS`
marker but with a display-date element is NOT left unmodified by the
phase-3 writer — the display-date substitution still runs and rewrites the
date element (and the run does not fail). -/
theorem inject_no_marker_counterexample :
    inject_into_html_p3 [Piece.text "<h1>", Piece.dateElem "2026. 1. 1."]
        [⟨"A1", some "2026-02-20", "회사", "미분류", "미분류", none, none, "미매칭", "미매칭",
          "미매칭", "미매칭", none, none, none, none, none, none, none, none, none, none, "db"⟩]
      ≠ some [Piece.text "<h1>", Piece.dateElem "2026. 1. 1."] := by
  decide

/-- C9 amended — when the `ALL_RECORDS` marker is absent the block
substitution is a no-op and neither writer fails on that account: the
phase-2 writer rewrites the document with unchanged content, and the
phase-3 writer leaves everything except the display-date element unchanged
(it still applies the display-date substitution when a truthy date exists,
and can still raise on an unparseable maximal date). -/
theorem inject_no_marker_amended :
    (∀ (content : List (Piece PDict)) (all_records : List PDict) (fields : List String),
        (∀ p ∈ content, isRecordsBlock p = false) →
          inject_into_html_p2 content all_records fields = content)
    ∧ (∀ (content : List (Piece Record)) (all_records : List Record),
        (∀ p ∈ content, isRecordsBlock p = false) →
          inject_into_html_p3 content all_records
            = (match pyTruthyDates all_records with
               | [] => some content
               | d :: ds =>
                 match date_display (ds.foldl max d) with
                 | some disp => some (subDateAll content disp)
                 | none => none)) := by
  constructor
  · intro content all_records fields h
    unfold inject_into_html_p2
    exact subBlockFirst_no_marker content _ h
  · intro content all_records h
    unfold inject_into_html_p3
    rw [subBlockFirst_no_marker content all_records h]

/-- Witness for C9 amended: both conjuncts applied to concrete marker-free
content. -/
theorem inject_no_marker_amended_witness :
    inject_into_html_p2 [Piece.text "<body>"] [[("chatId", JVal.s "A1")]] INDEX_FIELDS
        = [Piece.text "<body>"]
    ∧ inject_into_html_p3 ([Piece.text "<body>"] : List (Piece Record)) []
        = some [Piece.text "<body>"] := by
  constructor
  · exact inject_no_marker_amended.1 _ _ _ (by decide)
  · have h := inject_no_marker_amended.2 [Piece.text "<body>"] [] (by decide)
    simpa using h
